import Mathlib

/-!
Shallow embedding of the cost/time calculation engines of the machining
cost calculator repository (src/calcy.py, src/new.py,
src/thread_calculator.py).

Python floats are idealized as real numbers, extended with the IEEE-754
special values (`PVal`): the turning engine deliberately produces the
float `inf` as a sentinel, and `inf * 0.0` produces `nan`, so these
values must be observable.  Python raises `ZeroDivisionError` when a
float division has a zero divisor; every division of the source whose
divisor can be zero is therefore modelled with an `Except DomainError`
result.  Divisions by provably nonzero quantities (the literal
constants 2, 1000, 60, and divisors protected by a positivity guard in
the source) are modelled by exact real division.
-/

open scoped Classical

namespace MachCalc

/-- A division whose divisor is zero raises in the source
(Python `ZeroDivisionError`); this is the spec's DomainError. -/
inductive DomainError where
  | divisionByZero
deriving DecidableEq

/-- An extended float value: a finite real, `inf`, `-inf`, or `nan`.
Models the result values of the turning engine, which can be the float
infinity sentinel (src/calcy.py line 24), and downstream of it `nan`. -/
inductive PVal where
  | num (x : ℝ)
  | inf
  | ninf
  | nan

/-- IEEE-754 addition on extended values (the cases Python float `+`
realizes: finite plus finite is finite, `inf + finite = inf`,
`inf + (-inf) = nan`, `nan` is absorbing). -/
def PVal.add : PVal → PVal → PVal
  | PVal.nan, _ => PVal.nan
  | _, PVal.nan => PVal.nan
  | PVal.num x, PVal.num y => PVal.num (x + y)
  | PVal.num _, PVal.inf => PVal.inf
  | PVal.inf, PVal.num _ => PVal.inf
  | PVal.inf, PVal.inf => PVal.inf
  | PVal.num _, PVal.ninf => PVal.ninf
  | PVal.ninf, PVal.num _ => PVal.ninf
  | PVal.ninf, PVal.ninf => PVal.ninf
  | PVal.inf, PVal.ninf => PVal.nan
  | PVal.ninf, PVal.inf => PVal.nan

/-- IEEE-754 multiplication on extended values (Python float `*`):
`inf * y` follows the sign of `y`, and `inf * 0.0 = nan`. -/
noncomputable def PVal.mul : PVal → PVal → PVal
  | PVal.nan, _ => PVal.nan
  | _, PVal.nan => PVal.nan
  | PVal.num x, PVal.num y => PVal.num (x * y)
  | PVal.inf, PVal.num y =>
      if 0 < y then PVal.inf else if y < 0 then PVal.ninf else PVal.nan
  | PVal.num x, PVal.inf =>
      if 0 < x then PVal.inf else if x < 0 then PVal.ninf else PVal.nan
  | PVal.ninf, PVal.num y =>
      if 0 < y then PVal.ninf else if y < 0 then PVal.inf else PVal.nan
  | PVal.num x, PVal.ninf =>
      if 0 < x then PVal.ninf else if x < 0 then PVal.inf else PVal.nan
  | PVal.inf, PVal.inf => PVal.inf
  | PVal.inf, PVal.ninf => PVal.ninf
  | PVal.ninf, PVal.inf => PVal.ninf
  | PVal.ninf, PVal.ninf => PVal.inf

/-- Division of an extended value by a positive real constant (Python
float `/` with a positive literal divisor, here only `60.0`):
finite values divide, infinities keep their sign, `nan` is absorbing. -/
noncomputable def PVal.divPos : PVal → ℝ → PVal
  | PVal.num x, c => PVal.num (x / c)
  | PVal.inf, _ => PVal.inf
  | PVal.ninf, _ => PVal.ninf
  | PVal.nan, _ => PVal.nan

/-- TurningJobInput: the nine numeric arguments of
`calculate_cost_for_row` (src/calcy.py line 9), in source order. -/
structure TurningInput where
  L_raw : ℝ
  D_raw : ℝ
  D_final : ℝ
  density : ℝ
  cost_per_kg : ℝ
  feed_rate : ℝ
  cutting_speed : ℝ
  MHR : ℝ
  extra_time : ℝ

/-- TurningJobOutput: the five values returned by
`calculate_cost_for_row` (src/calcy.py line 32).  The material cost is
always a finite real; the four time/cost values can be `inf` (or, after
multiplying `inf` by a zero rate, `nan`). -/
structure TurningOutput where
  material_cost : ℝ
  machining_cost : PVal
  total_cost : PVal
  machining_time : PVal
  total_time_min : PVal

/-- The tail of the turning computation shared by both source variants
(src/calcy.py lines 26-32 and src/new.py lines 91-95): total time,
conversion to hours, machining cost and total cost, from the material
cost and the (possibly infinite) machining time. -/
noncomputable def finishRow (material_cost : ℝ) (machining_time : PVal)
    (MHR extra_time : ℝ) : TurningOutput :=
  let total_time_min := machining_time.add (PVal.num extra_time)
  let total_time_hr := total_time_min.divPos 60
  let machining_cost := total_time_hr.mul (PVal.num MHR)
  let total_cost := (PVal.num material_cost).add machining_cost
  ⟨material_cost, machining_cost, total_cost, machining_time, total_time_min⟩

/-- `calculate_cost_for_row` (src/calcy.py lines 9-32).  The spindle
speed division raises when its divisor `pi * D_final` is zero; the
machining-time division is reached only under the guard
`spindle_speed > 0 and feed_rate > 0`, whose divisor is then provably
nonzero, and otherwise machining time is the float `inf` sentinel. -/
noncomputable def calculate_cost_for_row (i : TurningInput) :
    Except DomainError TurningOutput :=
  let volume_mm3 := Real.pi * ((i.D_raw / 2) ^ 2) * i.L_raw
  let volume_cm3 := volume_mm3 / 1000
  let weight_kg := (volume_cm3 * i.density) / 1000
  let material_cost := weight_kg * i.cost_per_kg
  if Real.pi * i.D_final = 0 then Except.error DomainError.divisionByZero else
  let spindle_speed := (1000 * i.cutting_speed) / (Real.pi * i.D_final)
  let machining_time :=
    if 0 < spindle_speed ∧ 0 < i.feed_rate then
      PVal.num (i.L_raw / (i.feed_rate * spindle_speed))
    else PVal.inf
  Except.ok (finishRow material_cost machining_time i.MHR i.extra_time)

/-- The inline turning computation of src/new.py (lines 82-95).  Same
arithmetic as `calculate_cost_for_row`, but the machining-time guard
checks only `spindle_speed > 0`; its division therefore can see a zero
divisor (when `feed_rate = 0`) and then raises. -/
noncomputable def new_inline_cost (i : TurningInput) :
    Except DomainError TurningOutput :=
  let volume_mm3 := Real.pi * ((i.D_raw / 2) ^ 2) * i.L_raw
  let volume_cm3 := volume_mm3 / 1000
  let weight_kg := (volume_cm3 * i.density) / 1000
  let material_cost := weight_kg * i.cost_per_kg
  if Real.pi * i.D_final = 0 then Except.error DomainError.divisionByZero else
  let spindle_speed := (1000 * i.cutting_speed) / (Real.pi * i.D_final)
  if 0 < spindle_speed then
    if i.feed_rate * spindle_speed = 0 then
      Except.error DomainError.divisionByZero
    else
      Except.ok (finishRow material_cost
        (PVal.num (i.L_raw / (i.feed_rate * spindle_speed))) i.MHR i.extra_time)
  else
    Except.ok (finishRow material_cost PVal.inf i.MHR i.extra_time)

/-- ThreadJobInput: the inputs of src/thread_calculator.py (major
diameter `D`, pitch `P`, length `L`, rolling speed `S`, then the cost
inputs in source order).  Tool life is an integer in the source
(`st.number_input` with integer bounds). -/
structure ThreadInput where
  D : ℝ
  P : ℝ
  L : ℝ
  S : ℝ
  density : ℝ
  cost_per_kg : ℝ
  volume : ℝ
  machine_rate : ℝ
  operator_rate : ℝ
  tool_cost : ℝ
  tool_life_parts : ℕ

/-- ThreadJobOutput: the eight values displayed by
src/thread_calculator.py (lines 38-49).  All are finite reals: this
engine has no infinity sentinel, its zero divisors raise instead. -/
structure ThreadOutput where
  N : ℝ
  F : ℝ
  T : ℝ
  material_cost : ℝ
  machine_cost : ℝ
  labor_cost : ℝ
  tooling_cost : ℝ
  total_cost : ℝ

/-- The thread rolling computation of src/thread_calculator.py
(lines 38-47): `N = 1000*S/(pi*D)`, `F = N*P`, `T = L/F`, then the four
cost components and their sum.  Each of the three divisions raises when
its divisor is zero (`pi*D`, `F`, `tool_life_parts`). -/
noncomputable def thread_rolling_calc (i : ThreadInput) :
    Except DomainError ThreadOutput :=
  if Real.pi * i.D = 0 then Except.error DomainError.divisionByZero else
  let N := (1000 * i.S) / (Real.pi * i.D)
  let F := N * i.P
  if F = 0 then Except.error DomainError.divisionByZero else
  let T := i.L / F
  let material_cost := i.volume * i.density * i.cost_per_kg / 1000
  let machine_cost := (i.machine_rate / 60) * T
  let labor_cost := (i.operator_rate / 60) * T
  if (i.tool_life_parts : ℝ) = 0 then Except.error DomainError.divisionByZero else
  let tooling_cost := i.tool_cost / (i.tool_life_parts : ℝ)
  let total_cost := material_cost + machine_cost + labor_cost + tooling_cost
  Except.ok ⟨N, F, T, material_cost, machine_cost, labor_cost, tooling_cost,
    total_cost⟩

/-- A cell of an uploaded batch row: either a numeric value or
non-numeric content (e.g. a string), which makes the row's arithmetic
raise a `TypeError` in the source. -/
inductive Cell where
  | num (x : ℝ)
  | nonNumeric

/-- One row of the uploaded batch file: the `length`, `dia` and
`chamfer` columns consumed by the bulk branch of src/calcy.py
(lines 163-172). -/
structure RawRow where
  length : Cell
  dia : Cell
  chamfer : Cell

/-- The parameters shared by every row of a batch: the common bulk
raw diameter (`D_raw_bulk`) and the sidebar defaults
(src/calcy.py lines 52-56 and 120-125). -/
structure BatchParams where
  D_raw : ℝ
  density : ℝ
  cost_per_kg : ℝ
  feed_rate : ℝ
  cutting_speed : ℝ
  MHR : ℝ

/-- Why a single batch row fails: a non-numeric cell (Python
`TypeError` inside the row lambda) or a `ZeroDivisionError` from the
row's own arithmetic. -/
inductive RowError where
  | nonNumericField
  | domain (e : DomainError)

/-- One batch row fed to `calculate_cost_for_row` through the lambda of
src/calcy.py lines 167-177: numeric cells are passed as
`L_raw`, `D_final` and `extra_time` together with the shared
parameters; a non-numeric cell makes the row raise. -/
noncomputable def row_cost (p : BatchParams) (r : RawRow) :
    Except RowError TurningOutput :=
  match r.length, r.dia, r.chamfer with
  | Cell.num L, Cell.num dia, Cell.num ch =>
      match calculate_cost_for_row
          ⟨L, p.D_raw, dia, p.density, p.cost_per_kg, p.feed_rate,
            p.cutting_speed, p.MHR, ch⟩ with
      | Except.ok o => Except.ok o
      | Except.error e => Except.error (RowError.domain e)
  | _, _, _ => Except.error RowError.nonNumericField

/-- The batch computation as the source actually behaves
(src/calcy.py lines 156-201): `df.apply` evaluates the rows in order
and the first row that raises aborts the whole `apply`; the surrounding
`try/except` turns that exception into an overall error message, so no
row results at all are produced. -/
noncomputable def batch_cost_src (p : BatchParams) :
    List RawRow → Except RowError (List TurningOutput)
  | [] => Except.ok []
  | r :: rs =>
      match row_cost p r with
      | Except.error e => Except.error e
      | Except.ok o =>
          match batch_cost_src p rs with
          | Except.error e => Except.error e
          | Except.ok os => Except.ok (o :: os)

/-! Closed-form expressions of the turning pipeline (the right-hand
sides of src/calcy.py lines 13-28 with all intermediate names
substituted), used to state what `calculate_cost_for_row` returns on
the guarded-safe domain. -/

/-- Material cost formula: `pi*(D_raw/2)^2*L_raw`, divided by 1000 to
cubic centimetres, times density divided by 1000 to kilograms (the
source's two separate divisions), times cost per kg. -/
noncomputable def materialCostR (i : TurningInput) : ℝ :=
  (Real.pi * ((i.D_raw / 2) ^ 2) * i.L_raw / 1000 * i.density / 1000) *
    i.cost_per_kg

/-- Spindle speed formula: `(1000 * cutting_speed) / (pi * D_final)`. -/
noncomputable def spindleSpeedR (i : TurningInput) : ℝ :=
  (1000 * i.cutting_speed) / (Real.pi * i.D_final)

/-- Machining time formula: `L_raw / (feed_rate * spindle_speed)`. -/
noncomputable def machiningTimeR (i : TurningInput) : ℝ :=
  i.L_raw / (i.feed_rate * spindleSpeedR i)

/-- Total time formula: machining time plus the extra fixed time. -/
noncomputable def totalTimeR (i : TurningInput) : ℝ :=
  machiningTimeR i + i.extra_time

/-- Machining cost formula: `(total_time / 60) * MHR`. -/
noncomputable def machiningCostR (i : TurningInput) : ℝ :=
  totalTimeR i / 60 * i.MHR

/-- The output record `calculate_cost_for_row` produces when every
guard passes: all five fields finite, given by the closed formulas. -/
noncomputable def evalOut (i : TurningInput) : TurningOutput :=
  ⟨materialCostR i, PVal.num (machiningCostR i),
    PVal.num (materialCostR i + machiningCostR i),
    PVal.num (machiningTimeR i), PVal.num (totalTimeR i)⟩

lemma pi_mul_ne_zero_of_pos {d : ℝ} (hd : 0 < d) : Real.pi * d ≠ 0 :=
  ne_of_gt (mul_pos Real.pi_pos hd)

lemma spindleSpeedR_pos {i : TurningInput} (hD : 0 < i.D_final)
    (hc : 0 < i.cutting_speed) : 0 < spindleSpeedR i :=
  div_pos (by linarith) (mul_pos Real.pi_pos hD)

/-- On the fully guarded-safe domain (`D_final`, `feed_rate`,
`cutting_speed` all positive) the turning engine returns the closed
formulas, all finite. -/
lemma calc_row_eval {i : TurningInput} (hD : 0 < i.D_final)
    (hf : 0 < i.feed_rate) (hc : 0 < i.cutting_speed) :
    calculate_cost_for_row i = Except.ok (evalOut i) := by
  have hpd : Real.pi * i.D_final ≠ 0 := pi_mul_ne_zero_of_pos hD
  have hs : 0 < (1000 * i.cutting_speed) / (Real.pi * i.D_final) :=
    spindleSpeedR_pos hD hc
  simp only [calculate_cost_for_row, evalOut, finishRow, materialCostR,
    machiningCostR, totalTimeR, machiningTimeR, spindleSpeedR]
  rw [if_neg hpd, if_pos ⟨hs, hf⟩]
  simp [PVal.add, PVal.mul, PVal.divPos]

/-! Closed-form expressions of the thread rolling pipeline
(src/thread_calculator.py lines 38-47). -/

/-- Thread spindle speed formula: `(1000 * S) / (pi * D)`. -/
noncomputable def threadN (i : ThreadInput) : ℝ :=
  (1000 * i.S) / (Real.pi * i.D)

/-- Thread feed rate formula: `N * P`. -/
noncomputable def threadF (i : ThreadInput) : ℝ := threadN i * i.P

/-- Thread rolling time formula: `L / F`. -/
noncomputable def threadT (i : ThreadInput) : ℝ := i.L / threadF i

/-- Thread material cost formula: `volume * density * cost_per_kg /
1000`, a single-stage division. -/
noncomputable def threadMaterialCost (i : ThreadInput) : ℝ :=
  i.volume * i.density * i.cost_per_kg / 1000

/-- Thread machine cost formula: `(machine_rate / 60) * T`. -/
noncomputable def threadMachineCost (i : ThreadInput) : ℝ :=
  (i.machine_rate / 60) * threadT i

/-- Thread labor cost formula: `(operator_rate / 60) * T`. -/
noncomputable def threadLaborCost (i : ThreadInput) : ℝ :=
  (i.operator_rate / 60) * threadT i

/-- Thread tooling cost formula: `tool_cost / tool_life_parts`. -/
noncomputable def threadToolingCost (i : ThreadInput) : ℝ :=
  i.tool_cost / (i.tool_life_parts : ℝ)

/-- The output record `thread_rolling_calc` produces when no divisor is
zero. -/
noncomputable def threadEvalOut (i : ThreadInput) : ThreadOutput :=
  ⟨threadN i, threadF i, threadT i, threadMaterialCost i,
    threadMachineCost i, threadLaborCost i, threadToolingCost i,
    threadMaterialCost i + threadMachineCost i + threadLaborCost i +
      threadToolingCost i⟩

/-- When `D > 0`, the derived feed rate is nonzero and the tool life is
positive, the thread engine returns the closed formulas. -/
lemma thread_calc_eval {i : ThreadInput} (hD : 0 < i.D)
    (hF : threadF i ≠ 0) (ht : 0 < i.tool_life_parts) :
    thread_rolling_calc i = Except.ok (threadEvalOut i) := by
  have hpd : Real.pi * i.D ≠ 0 := pi_mul_ne_zero_of_pos hD
  have htr : (i.tool_life_parts : ℝ) ≠ 0 := Nat.cast_ne_zero.mpr ht.ne.symm
  have hF2 : (1000 * i.S) / (Real.pi * i.D) * i.P ≠ 0 := hF
  simp only [thread_rolling_calc, threadEvalOut, threadN, threadF, threadT,
    threadMaterialCost, threadMachineCost, threadLaborCost, threadToolingCost]
  rw [if_neg hpd, if_neg hF2, if_neg htr]

/-! Concrete inputs used by witnesses: the default parameter values of
the source forms (src/calcy.py lines 52-56 and 92-94). -/

/-- The default single-part turning input: L=250, D_raw=38, D_final=36,
density=7.85, cost 55/kg, feed 0.2, cutting speed 20, MHR 800, chamfer
time 5. -/
noncomputable def turnDemo : TurningInput := ⟨250, 38, 36, 7.85, 55, 0.2, 20, 800, 5⟩

/-- The default turning input with `feed_rate = 0` (degenerate feed). -/
noncomputable def turnDemoFeed0 : TurningInput := ⟨250, 38, 36, 7.85, 55, 0, 20, 800, 5⟩

/-- The default turning input with `feed_rate = 0` and a zero
machine-hour rate. -/
noncomputable def turnDemoFeed0MHR0 : TurningInput := ⟨250, 38, 36, 7.85, 55, 0, 20, 0, 5⟩

/-- The default turning input with `D_final = 0`. -/
noncomputable def turnDemoDf0 : TurningInput := ⟨250, 38, 0, 7.85, 55, 0.2, 20, 800, 5⟩

/-- A turning input agreeing with `turnDemo` on raw length, raw
diameter, density and cost per kg, and differing in every other
field. -/
noncomputable def turnDemoB : TurningInput := ⟨250, 38, 20, 7.85, 55, 0.5, 30, 600, 2⟩

/-- C1: for every TurningJobInput with finalDiameter, feedRate and
cuttingSpeed positive, the turning engine returns
machiningTime = rawLength / (feedRate * spindleSpeed) with
spindleSpeed = (1000 * cuttingSpeed) / (pi * finalDiameter),
totalTime = machiningTime + extraTime, and
machiningCost = (totalTime / 60) * machineHourRate. -/
theorem C1_turning_pipeline (i : TurningInput) (hD : 0 < i.D_final)
    (hf : 0 < i.feed_rate) (hc : 0 < i.cutting_speed) :
    (calculate_cost_for_row i).map TurningOutput.machining_time =
      Except.ok (PVal.num (i.L_raw /
        (i.feed_rate * ((1000 * i.cutting_speed) / (Real.pi * i.D_final))))) ∧
    (calculate_cost_for_row i).map TurningOutput.total_time_min =
      Except.ok (PVal.num (i.L_raw /
        (i.feed_rate * ((1000 * i.cutting_speed) / (Real.pi * i.D_final))) +
        i.extra_time)) ∧
    (calculate_cost_for_row i).map TurningOutput.machining_cost =
      Except.ok (PVal.num ((i.L_raw /
        (i.feed_rate * ((1000 * i.cutting_speed) / (Real.pi * i.D_final))) +
        i.extra_time) / 60 * i.MHR)) := by
  rw [calc_row_eval hD hf hc]
  simp [Except.map, evalOut, machiningTimeR, totalTimeR, machiningCostR,
    spindleSpeedR]

/-- Witness for C1 at the default single-part input. -/
theorem C1_turning_pipeline_witness :
    (calculate_cost_for_row turnDemo).map TurningOutput.machining_time =
      Except.ok (PVal.num ((250 : ℝ) /
        (0.2 * ((1000 * 20) / (Real.pi * 36))))) :=
  (C1_turning_pipeline turnDemo (by norm_num [turnDemo]) (by norm_num [turnDemo])
    (by norm_num [turnDemo])).1

/-- C2 (amended): for every TurningJobInput with finalDiameter > 0 and
machineHourRate > 0, if spindleSpeed <= 0 or feedRate <= 0 then the
turning engine does not raise and machining time, total time, machining
cost and total cost are all the positive-infinity sentinel. -/
theorem C2_infinity_sentinel (i : TurningInput) (hD : 0 < i.D_final)
    (hM : 0 < i.MHR) (h : spindleSpeedR i ≤ 0 ∨ i.feed_rate ≤ 0) :
    (calculate_cost_for_row i).map TurningOutput.machining_time =
      Except.ok PVal.inf ∧
    (calculate_cost_for_row i).map TurningOutput.total_time_min =
      Except.ok PVal.inf ∧
    (calculate_cost_for_row i).map TurningOutput.machining_cost =
      Except.ok PVal.inf ∧
    (calculate_cost_for_row i).map TurningOutput.total_cost =
      Except.ok PVal.inf := by
  have hpd : Real.pi * i.D_final ≠ 0 := pi_mul_ne_zero_of_pos hD
  have hg : ¬(0 < (1000 * i.cutting_speed) / (Real.pi * i.D_final) ∧
      0 < i.feed_rate) := by
    rcases h with h | h
    · exact fun hc => absurd hc.1 (not_lt.mpr h)
    · exact fun hc => absurd hc.2 (not_lt.mpr h)
  simp only [calculate_cost_for_row, finishRow]
  rw [if_neg hpd, if_neg hg]
  simp [Except.map, PVal.add, PVal.divPos, PVal.mul, hM]

/-- Witness for C2 (amended) at the default input with zero feed. -/
theorem C2_infinity_sentinel_witness :
    (calculate_cost_for_row turnDemoFeed0).map TurningOutput.total_cost =
      Except.ok PVal.inf :=
  (C2_infinity_sentinel turnDemoFeed0 (by norm_num [turnDemoFeed0])
    (by norm_num [turnDemoFeed0])
    (Or.inr (by norm_num [turnDemoFeed0]))).2.2.2

/-- Counterexample to C2 as stated: with `feed_rate = 0` and
`MHR = 0`, machining time is the infinity sentinel but the total cost
is `nan` (the float product `inf * 0.0`), not positive infinity. -/
theorem C2_nan_counterexample :
    turnDemoFeed0MHR0.feed_rate ≤ 0 ∧
    (calculate_cost_for_row turnDemoFeed0MHR0).map TurningOutput.machining_time =
      Except.ok PVal.inf ∧
    (calculate_cost_for_row turnDemoFeed0MHR0).map TurningOutput.total_cost =
      Except.ok PVal.nan ∧
    (calculate_cost_for_row turnDemoFeed0MHR0).map TurningOutput.total_cost ≠
      Except.ok PVal.inf := by
  have hpd : Real.pi * turnDemoFeed0MHR0.D_final ≠ 0 :=
    pi_mul_ne_zero_of_pos (by norm_num [turnDemoFeed0MHR0])
  have hg : ¬(0 < (1000 * turnDemoFeed0MHR0.cutting_speed) /
      (Real.pi * turnDemoFeed0MHR0.D_final) ∧
      0 < turnDemoFeed0MHR0.feed_rate) := by
    intro hc
    have : (0 : ℝ) < 0 := by
      have h2 := hc.2
      norm_num [turnDemoFeed0MHR0] at h2
    exact absurd this (by norm_num)
  refine ⟨by norm_num [turnDemoFeed0MHR0], ?_⟩
  simp only [calculate_cost_for_row, finishRow]
  rw [if_neg hpd, if_neg hg]
  simp [Except.map, PVal.add, PVal.divPos, PVal.mul, turnDemoFeed0MHR0]

/-- C3: for every TurningJobInput with positive finalDiameter (so that
the call returns), the material cost is the raw cylinder volume
`pi*(D_raw/2)^2*L_raw`, divided by 1000, times density, divided again
by 1000 (the source's two separate divisions), times cost per kg. -/
theorem C3_material_cost (i : TurningInput) (hD : 0 < i.D_final) :
    (calculate_cost_for_row i).map TurningOutput.material_cost =
      Except.ok ((Real.pi * ((i.D_raw / 2) ^ 2) * i.L_raw / 1000 *
        i.density / 1000) * i.cost_per_kg) := by
  have hpd : Real.pi * i.D_final ≠ 0 := pi_mul_ne_zero_of_pos hD
  simp only [calculate_cost_for_row, finishRow]
  rw [if_neg hpd]
  simp [Except.map]

/-- Witness for C3 at the default single-part input. -/
theorem C3_material_cost_witness :
    (calculate_cost_for_row turnDemo).map TurningOutput.material_cost =
      Except.ok ((Real.pi * (((38 : ℝ) / 2) ^ 2) * 250 / 1000 *
        7.85 / 1000) * 55) :=
  C3_material_cost turnDemo (by norm_num [turnDemo])

/-- C4: for every valid TurningJobInput (all nine fields positive,
finalDiameter < rawDiameter), material cost and machining cost are both
nonnegative finite values and the total cost is exactly their sum. -/
theorem C4_cost_decomposition (i : TurningInput) (h1 : 0 < i.L_raw)
    (h2 : 0 < i.D_raw) (h3 : 0 < i.D_final) (h4 : 0 < i.density)
    (h5 : 0 < i.cost_per_kg) (h6 : 0 < i.feed_rate)
    (h7 : 0 < i.cutting_speed) (h8 : 0 < i.MHR) (h9 : 0 < i.extra_time)
    (_hlt : i.D_final < i.D_raw) :
    (calculate_cost_for_row i).map TurningOutput.material_cost =
      Except.ok (materialCostR i) ∧
    0 ≤ materialCostR i ∧
    (calculate_cost_for_row i).map TurningOutput.machining_cost =
      Except.ok (PVal.num (machiningCostR i)) ∧
    0 ≤ machiningCostR i ∧
    (calculate_cost_for_row i).map TurningOutput.total_cost =
      Except.ok (PVal.num (materialCostR i + machiningCostR i)) := by
  have hN : 0 < spindleSpeedR i := spindleSpeedR_pos h3 h7
  have hmt : 0 < machiningTimeR i := div_pos h1 (mul_pos h6 hN)
  have htt : 0 < totalTimeR i := add_pos hmt h9
  have hmc : 0 < machiningCostR i :=
    mul_pos (div_pos htt (by norm_num)) h8
  have hmat : 0 ≤ materialCostR i := by
    have hpi := Real.pi_pos
    have hsq : (0 : ℝ) ≤ (i.D_raw / 2) ^ 2 := sq_nonneg _
    unfold materialCostR
    positivity
  rw [calc_row_eval h3 h6 h7]
  refine ⟨by simp [Except.map, evalOut], hmat,
    by simp [Except.map, evalOut], le_of_lt hmc,
    by simp [Except.map, evalOut]⟩

/-- Witness for C4 at the default single-part input. -/
theorem C4_cost_decomposition_witness :
    (calculate_cost_for_row turnDemo).map TurningOutput.total_cost =
      Except.ok (PVal.num (materialCostR turnDemo + machiningCostR turnDemo)) :=
  (C4_cost_decomposition turnDemo (by norm_num [turnDemo])
    (by norm_num [turnDemo]) (by norm_num [turnDemo]) (by norm_num [turnDemo])
    (by norm_num [turnDemo]) (by norm_num [turnDemo]) (by norm_num [turnDemo])
    (by norm_num [turnDemo]) (by norm_num [turnDemo])
    (by norm_num [turnDemo])).2.2.2.2

/-- The default thread rolling input of src/thread_calculator.py:
D=10, P=1.5, L=20, S=20, density 7.85, cost 1/kg, volume 100, machine
rate 20, operator rate 15, tool cost 100, tool life 1000 parts. -/
noncomputable def threadDemo : ThreadInput :=
  ⟨10, 1.5, 20, 20, 7.85, 1, 100, 20, 15, 100, 1000⟩

/-- The default thread rolling input with `D = 0`. -/
noncomputable def threadDemoD0 : ThreadInput :=
  ⟨0, 1.5, 20, 20, 7.85, 1, 100, 20, 15, 100, 1000⟩

/-- C5: on every ThreadJobInput with positive major diameter, nonzero
derived feed rate and positive tool life, the thread engine returns
N = (1000*S)/(pi*D), F = N*P, T = L/F, the single-stage material cost
volume*density*costPerKg/1000, machine and labor costs rate/60 times T,
tooling cost toolCost/toolLifeParts, and their sum; and on the literal
input D=10, P=1.5, L=20, S=20 it returns N within 0.05 of 636.6,
F within 0.05 of 954.9 and T within 0.00001 of 0.02094. -/
theorem C5_thread_pipeline :
    (∀ i : ThreadInput, 0 < i.D → threadF i ≠ 0 → 0 < i.tool_life_parts →
      thread_rolling_calc i = Except.ok (threadEvalOut i) ∧
      threadN i = (1000 * i.S) / (Real.pi * i.D) ∧
      threadF i = threadN i * i.P ∧
      threadT i = i.L / threadF i ∧
      threadMaterialCost i = i.volume * i.density * i.cost_per_kg / 1000 ∧
      threadMachineCost i = (i.machine_rate / 60) * threadT i ∧
      threadLaborCost i = (i.operator_rate / 60) * threadT i ∧
      threadToolingCost i = i.tool_cost / (i.tool_life_parts : ℝ) ∧
      (threadEvalOut i).total_cost = threadMaterialCost i +
        threadMachineCost i + threadLaborCost i + threadToolingCost i) ∧
    |threadN threadDemo - 636.6| < 0.05 ∧
    |threadF threadDemo - 954.9| < 0.05 ∧
    |threadT threadDemo - 0.02094| < 0.00001 := by
  have hpi := Real.pi_pos
  have h1 := Real.pi_gt_d6
  have h2 := Real.pi_lt_d6
  have e1 : threadN threadDemo = 2000 / Real.pi := by
    simp only [threadN, threadDemo]
    rw [div_eq_div_iff (by positivity) Real.pi_ne_zero]
    ring
  have e2 : threadF threadDemo = 3000 / Real.pi := by
    have hP : threadDemo.P = 1.5 := rfl
    simp only [threadF, e1, hP]
    rw [div_mul_eq_mul_div]
    norm_num
  have e3 : threadT threadDemo = Real.pi / 150 := by
    have hL : threadDemo.L = 20 := rfl
    simp only [threadT, e2, hL]
    rw [div_div_eq_mul_div, div_eq_div_iff (by norm_num) (by norm_num)]
    ring
  have hN1 : 2000 / Real.pi < 636.65 := by
    rw [div_lt_iff₀ hpi]
    nlinarith
  have hN2 : (636.55 : ℝ) < 2000 / Real.pi := by
    rw [lt_div_iff₀ hpi]
    nlinarith
  have hG1 : 3000 / Real.pi < 954.95 := by
    rw [div_lt_iff₀ hpi]
    nlinarith
  have hG2 : (954.85 : ℝ) < 3000 / Real.pi := by
    rw [lt_div_iff₀ hpi]
    nlinarith
  have hT1 : Real.pi / 150 < 0.02095 := by
    rw [div_lt_iff₀ (by norm_num : (0:ℝ) < 150)]
    nlinarith
  have hT2 : (0.02093 : ℝ) < Real.pi / 150 := by
    rw [lt_div_iff₀ (by norm_num : (0:ℝ) < 150)]
    nlinarith
  refine ⟨fun i hD hF ht =>
    ⟨thread_calc_eval hD hF ht, rfl, rfl, rfl, rfl, rfl, rfl, rfl, rfl⟩,
    ?_, ?_, ?_⟩
  · rw [e1, abs_sub_lt_iff]
    constructor <;> linarith
  · rw [e2, abs_sub_lt_iff]
    constructor <;> linarith
  · rw [e3, abs_sub_lt_iff]
    constructor <;> linarith

/-- Witness for C5 at the literal thread rolling input. -/
theorem C5_thread_pipeline_witness :
    thread_rolling_calc threadDemo = Except.ok (threadEvalOut threadDemo) := by
  have hF : threadF threadDemo ≠ 0 := by
    simp only [threadF, threadN, threadDemo]
    positivity
  exact (C5_thread_pipeline.1 threadDemo (by norm_num [threadDemo]) hF
    (by norm_num [threadDemo])).1

/-- C6: the thread engine has no infinity sentinel: whenever the
derived feed rate is zero (in particular when the major diameter is
zero), it fails with the division-by-zero DomainError. -/
theorem C6_thread_domain_error (i : ThreadInput) (hF : threadF i = 0) :
    thread_rolling_calc i = Except.error DomainError.divisionByZero := by
  have hF2 : (1000 * i.S) / (Real.pi * i.D) * i.P = 0 := hF
  simp only [thread_rolling_calc]
  by_cases hpd : Real.pi * i.D = 0
  · rw [if_pos hpd]
  · rw [if_neg hpd, if_pos hF2]

/-- Witness for C6 at the literal thread input with `D = 0`. -/
theorem C6_thread_domain_error_witness :
    thread_rolling_calc threadDemoD0 = Except.error DomainError.divisionByZero :=
  C6_thread_domain_error threadDemoD0
    (by simp [threadF, threadN, threadDemoD0])

/-- C7: with a zero final diameter the turning engine fails with the
division-by-zero DomainError while computing the spindle speed, instead
of silently producing infinity. -/
theorem C7_zero_final_diameter (i : TurningInput) (hD : i.D_final = 0) :
    calculate_cost_for_row i = Except.error DomainError.divisionByZero := by
  simp only [calculate_cost_for_row]
  rw [if_pos (by rw [hD, mul_zero])]

/-- Witness for C7 at the default input with `D_final = 0`. -/
theorem C7_zero_final_diameter_witness :
    calculate_cost_for_row turnDemoDf0 = Except.error DomainError.divisionByZero :=
  C7_zero_final_diameter turnDemoDf0 rfl

/-- The shared batch parameters of the bulk branch: common raw diameter
38 and the sidebar defaults. -/
noncomputable def batchParamsDemo : BatchParams := ⟨38, 7.85, 55, 0.2, 20, 800⟩

/-- A well-formed batch row (index 0). -/
noncomputable def goodRow1 : RawRow := ⟨Cell.num 250, Cell.num 36, Cell.num 5⟩

/-- A malformed batch row (index 1): non-numeric `length`. -/
noncomputable def badRow : RawRow := ⟨Cell.nonNumeric, Cell.num 30, Cell.num 4⟩

/-- A well-formed batch row (index 2). -/
noncomputable def goodRow2 : RawRow := ⟨Cell.num 300, Cell.num 20, Cell.num 3⟩

/-- C8 (behavior of the source at the claim's failing input): rows 0
and 2 each succeed on their own, yet the batch computation of
src/calcy.py over the three rows returns no row results at all: the
malformed row 1 aborts the whole batch. -/
theorem C8_batch_abort :
    row_cost batchParamsDemo goodRow1 =
      Except.ok (evalOut ⟨250, 38, 36, 7.85, 55, 0.2, 20, 800, 5⟩) ∧
    row_cost batchParamsDemo goodRow2 =
      Except.ok (evalOut ⟨300, 38, 20, 7.85, 55, 0.2, 20, 800, 3⟩) ∧
    batch_cost_src batchParamsDemo [goodRow1, badRow, goodRow2] =
      Except.error RowError.nonNumericField := by
  have h1 : row_cost batchParamsDemo goodRow1 =
      Except.ok (evalOut ⟨250, 38, 36, 7.85, 55, 0.2, 20, 800, 5⟩) := by
    simp only [row_cost, goodRow1, batchParamsDemo]
    rw [calc_row_eval (i := ⟨250, 38, 36, 7.85, 55, 0.2, 20, 800, 5⟩)
      (by norm_num) (by norm_num) (by norm_num)]
  have h2 : row_cost batchParamsDemo goodRow2 =
      Except.ok (evalOut ⟨300, 38, 20, 7.85, 55, 0.2, 20, 800, 3⟩) := by
    simp only [row_cost, goodRow2, batchParamsDemo]
    rw [calc_row_eval (i := ⟨300, 38, 20, 7.85, 55, 0.2, 20, 800, 3⟩)
      (by norm_num) (by norm_num) (by norm_num)]
  have hbad : row_cost batchParamsDemo badRow =
      Except.error RowError.nonNumericField := by
    simp [row_cost, badRow]
  exact ⟨h1, h2, by simp [batch_cost_src, h1, hbad]⟩

/-- C9: on the domain where both guards agree (positive final diameter
and positive feed rate) the two turning variants, the function of
src/calcy.py and the inline computation of src/new.py, return the very
same result. -/
theorem C9_variants_agree (i : TurningInput) (hD : 0 < i.D_final)
    (hf : 0 < i.feed_rate) :
    calculate_cost_for_row i = new_inline_cost i := by
  have hpd : Real.pi * i.D_final ≠ 0 := pi_mul_ne_zero_of_pos hD
  simp only [calculate_cost_for_row, new_inline_cost]
  rw [if_neg hpd, if_neg hpd]
  by_cases hs : 0 < (1000 * i.cutting_speed) / (Real.pi * i.D_final)
  · have hfs : i.feed_rate * ((1000 * i.cutting_speed) /
        (Real.pi * i.D_final)) ≠ 0 := ne_of_gt (mul_pos hf hs)
    rw [if_pos (⟨hs, hf⟩ : _ ∧ _), if_pos hs, if_neg hfs]
  · rw [if_neg (fun hc => hs hc.1), if_neg hs]

/-- Witness for C9 at the default single-part input. -/
theorem C9_variants_agree_witness :
    calculate_cost_for_row turnDemo = new_inline_cost turnDemo :=
  C9_variants_agree turnDemo (by norm_num [turnDemo]) (by norm_num [turnDemo])

lemma material_cost_of_ok {i : TurningInput} {o : TurningOutput}
    (h : calculate_cost_for_row i = Except.ok o) :
    o.material_cost = materialCostR i := by
  by_cases hpd : Real.pi * i.D_final = 0
  · simp only [calculate_cost_for_row] at h
    rw [if_pos hpd] at h
    exact absurd h (by simp)
  · simp only [calculate_cost_for_row, finishRow] at h
    rw [if_neg hpd] at h
    injection h with h
    rw [← h]
    simp [materialCostR]

/-- C10: the material cost depends only on raw length, raw diameter,
density and cost per kg: two calls of the turning engine that agree on
those four fields and both return produce identical material costs,
whatever their cut geometry and time/rate parameters. -/
theorem C10_material_noninterference (a b : TurningInput)
    (hL : a.L_raw = b.L_raw) (hDr : a.D_raw = b.D_raw)
    (hden : a.density = b.density) (hcost : a.cost_per_kg = b.cost_per_kg)
    (oa ob : TurningOutput)
    (ha : calculate_cost_for_row a = Except.ok oa)
    (hb : calculate_cost_for_row b = Except.ok ob) :
    oa.material_cost = ob.material_cost := by
  rw [material_cost_of_ok ha, material_cost_of_ok hb]
  simp only [materialCostR, hL, hDr, hden, hcost]

/-- Witness for C10: the default input and a variant with different
final diameter, feed, speed, rate and extra time give the same
material cost. -/
theorem C10_material_noninterference_witness :
    (evalOut turnDemo).material_cost = (evalOut turnDemoB).material_cost :=
  C10_material_noninterference turnDemo turnDemoB rfl rfl rfl rfl
    (evalOut turnDemo) (evalOut turnDemoB)
    (calc_row_eval (by norm_num [turnDemo]) (by norm_num [turnDemo])
      (by norm_num [turnDemo]))
    (calc_row_eval (by norm_num [turnDemoB]) (by norm_num [turnDemoB])
      (by norm_num [turnDemoB]))

end MachCalc
